import Mathlib

/-!
Shallow embedding of the API-client module `frontend/client/lib/api.ts` of the
dashboard repository, together with proofs of the specified properties.

Modelling conventions:
* A completed HTTP exchange is `NetResult.success status body`; a rejected
  `fetch` promise (network/transport failure) is `NetResult.transportError`.
* `Response.ok` is `isOk status` (status in [200, 300)).
* JSON bodies are pre-decoded into per-endpoint record types; a field that may
  be absent in the wire JSON (JavaScript `undefined`) is an `Option`; a body on
  which property access itself throws (e.g. `null`) is `none` at the body
  level.
* A thrown JavaScript `Error` is `ApiError.thrown message`; an uncaught
  transport rejection propagating out of a function is `ApiError.transport`.
  A function whose embedded result type carries no `Except` layer cannot throw
  to its caller: its try/catch converts every failure into a fallback value.
* `localStorage` is used by the module through the single key `"auth_token"`,
  so the session store state is `Option String`.
* Numeric JSON values are embedded as `Rat` so that statements such as
  `0.9 × F` are exact.
-/

namespace Api

/-- `Response.ok`: the HTTP status is a success status. -/
def isOk (status : Nat) : Bool := 200 ≤ status && status < 300

/-- Outcome of one `fetch` call with decoded body type `β`. -/
inductive NetResult (β : Type) where
  | success (status : Nat) (body : β)
  | transportError
deriving DecidableEq

/-- A failure observable by a caller of an async api function: an `Error`
thrown deliberately with a message, an uncaught TypeError raised by property
access on a null value, or an uncaught transport rejection. -/
inductive ApiError where
  | thrown (msg : String)
  | typeError
  | transport
deriving DecidableEq

/-- Session store state: the value stored under the `"auth_token"` key. -/
abbrev Store := Option String

/-- `getAuthToken`: `localStorage.getItem("auth_token")`. -/
def getAuthToken (s : Store) : Option String := s

/-- `setAuthToken`: `localStorage.setItem("auth_token", token)`. -/
def setAuthToken (token : String) (_s : Store) : Store := some token

/-- `removeAuthToken`: `localStorage.removeItem("auth_token")`. -/
def removeAuthToken (_s : Store) : Store := none

/-- A mutation of the session store (the two mutating operations). -/
inductive StoreOp where
  | set (t : String)
  | remove
deriving DecidableEq

/-- Run a sequence of session-store mutations from an initial state. -/
def applyOps (ops : List StoreOp) (s : Store) : Store :=
  ops.foldl (fun st op =>
    match op with
    | StoreOp.set t => setAuthToken t st
    | StoreOp.remove => removeAuthToken st) s

/-- Decoded body of a successful login response. -/
structure LoginResponse where
  access_token : String
  token_type : String
  expires_in : Nat
  username : String
deriving DecidableEq

/-- Decoded body of `/auth/me`. -/
structure UserResponse where
  username : String
  is_admin : Bool
deriving DecidableEq

/-- The body of a non-success login response as seen by the error path:
`notJson` when `res.json()` rejects (the attached catch substitutes
`\x7b detail: "Login failed" \x7d`), `nullBody` when it resolves with the
valid JSON value null (so the later `error.detail` property access throws a
TypeError outside the catch guard), `obj d` when it resolves with an object
carrying optional string field `detail = d`. -/
inductive LoginErrBody where
  | notJson
  | nullBody
  | obj (detail : Option String)
deriving DecidableEq

/-- One `login` exchange. -/
inductive LoginHttp where
  | ok (resp : LoginResponse)
  | badStatus (body : LoginErrBody)
  | transportError
deriving DecidableEq

/-- `login`: POST credentials; on success store the issued token and resolve,
otherwise read the body as an error object and throw
`Error(error.detail || "Login failed")` leaving the store untouched.
JavaScript `||` takes the right operand when `detail` is absent or the empty
string; the `.catch` guards only the JSON decode, so a body decoding to null
makes the `error.detail` access itself raise an uncaught TypeError. An
uncaught transport failure propagates. -/
def login (net : LoginHttp) (s : Store) : Except ApiError LoginResponse × Store :=
  match net with
  | LoginHttp.ok resp => (Except.ok resp, setAuthToken resp.access_token s)
  | LoginHttp.badStatus b =>
      ((match b with
        | LoginErrBody.nullBody => Except.error ApiError.typeError
        | LoginErrBody.notJson => Except.error (ApiError.thrown "Login failed")
        | LoginErrBody.obj none => Except.error (ApiError.thrown "Login failed")
        | LoginErrBody.obj (some d) =>
            Except.error (ApiError.thrown
              (if d = "" then "Login failed" else d))),
       s)
  | LoginHttp.transportError => (Except.error ApiError.transport, s)

/-- Request descriptor of the logout POST. -/
def logoutRequest : String := "POST /api/v1/auth/logout"

/-- Request descriptor of the current-user GET. -/
def authMeRequest : String := "GET /api/v1/auth/me"

/-- JavaScript truthiness test used on the stored token: `!token` holds both
for a missing value (`getItem` returned null) and for the empty string. -/
def falsy (t : Option String) : Bool :=
  match t with
  | none => true
  | some str => str == ""

/-- `logout`: read the token; `if (!token) return` — a missing or empty
stored token returns at once with no request, leaving the store as it was;
a truthy token POSTs the logout request (its outcome is ignored by the
catch) and the `finally` clause removes the token. The result is the final
store state and the list of issued requests; the plain (non-`Except`) result
type reflects that `logout` never throws. -/
def logout (s : Store) (_net : NetResult Unit) : Store × List String :=
  if falsy (getAuthToken s) then (s, [])
  else (removeAuthToken s, [logoutRequest])

/-- `getCurrentUser`: `if (!token)` — with a missing or empty stored token,
throw "Not authenticated" with no request, leaving the store as it was;
with a truthy token GET `/auth/me`; on 401 remove the token and throw
"Session expired"; on any other non-success status throw
"Failed to get user" keeping the token; on success resolve with the body.
Result: (outcome, final store, issued requests). -/
def getCurrentUser (s : Store) (net : NetResult UserResponse) :
    Except ApiError UserResponse × Store × List String :=
  if falsy (getAuthToken s) then
    (Except.error (ApiError.thrown "Not authenticated"), s, [])
  else
    match net with
    | NetResult.transportError =>
        (Except.error ApiError.transport, s, [authMeRequest])
    | NetResult.success st body =>
        if isOk st then (Except.ok body, s, [authMeRequest])
        else if st = 401 then
          (Except.error (ApiError.thrown "Session expired"),
            removeAuthToken s, [authMeRequest])
        else
          (Except.error (ApiError.thrown "Failed to get user"),
            s, [authMeRequest])

/-- Loosely decoded body of the KPI endpoint: every field may be absent. -/
structure KPIJson where
  avg_weekly_sales : Option Rat
  max_sales : Option Rat
  min_sales : Option Rat
  volatility : Option Rat
  holiday_sales_avg : Option Rat
deriving DecidableEq

/-- The frontend KPI view model produced by the field-renaming map. -/
structure KPIMetrics where
  avgWeeklySales : Option Rat
  maxSales : Option Rat
  minSales : Option Rat
  volatility : Option Rat
  holidaySalesAvg : Option Rat
deriving DecidableEq

/-- The snake_case → camelCase field map inside `fetchKPIMetrics`; plain
property reads, so an absent field simply flows through as `undefined`. -/
def mapKPI (j : KPIJson) : KPIMetrics :=
  { avgWeeklySales := j.avg_weekly_sales
    maxSales := j.max_sales
    minSales := j.min_sales
    volatility := j.volatility
    holidaySalesAvg := j.holiday_sales_avg }

/-- Modelled from the spec: `demoKPIMetrics` lives in `demo-data.ts`, which is
not among the provided sources; the fallback provider of the spec supplies a fixed
synthetic substitute value of the KPI shape. -/
def demoKPIMetrics : KPIMetrics :=
  { avgWeeklySales := some 15000
    maxSales := some 60000
    minSales := some 2000
    volatility := some (1/10)
    holidaySalesAvg := some 17000 }

/-- The body of the try block of `fetchKPIMetrics`: throw "API error" on a
non-success status, throw on property access when the body is `null`
(`none`), otherwise map the fields. -/
def fetchKPIBody (net : NetResult (Option KPIJson)) : Except ApiError KPIMetrics :=
  match net with
  | NetResult.transportError => Except.error ApiError.transport
  | NetResult.success st body =>
      if isOk st then
        match body with
        | some j => Except.ok (mapKPI j)
        | none => Except.error (ApiError.thrown "TypeError")
      else Except.error (ApiError.thrown "API error")

/-- `fetchKPIMetrics`: the try body with every failure caught and replaced by
the demo fallback. -/
def fetchKPIMetrics (net : NetResult (Option KPIJson)) : KPIMetrics :=
  match fetchKPIBody net with
  | Except.ok v => v
  | Except.error _ => demoKPIMetrics

/-- Decoded entry of the stores list. -/
structure StoreSummary where
  store_id : Nat
  total_sales : Rat
  avg_weekly_sales : Rat
  dept_count : Nat
deriving DecidableEq

/-- Decoded body of the stores endpoint. -/
structure StoresPayload where
  total_stores : Nat
  stores : List StoreSummary
deriving DecidableEq

/-- The literal fallback of `fetchStores`:
`\x7b total_stores: 0, stores: [] \x7d`. -/
def fallbackStores : StoresPayload := { total_stores := 0, stores := [] }

/-- `fetchStores`: return the decoded body unchanged on success, the literal
empty payload on any failure. -/
def fetchStores (net : NetResult StoresPayload) : StoresPayload :=
  match net with
  | NetResult.transportError => fallbackStores
  | NetResult.success st p => if isOk st then p else fallbackStores

/-- Decoded backend forecast item; bounds may be absent from the wire JSON. -/
structure ForecastItem where
  timestamp : String
  forecast : Rat
  lower_bound : Option Rat
  upper_bound : Option Rat
deriving DecidableEq

/-- The frontend forecast view-model point. `lowerInterval`/`upperInterval`
are `Option` because the map copies possibly-absent fields verbatim. -/
structure ForecastPoint where
  date : String
  forecast : Rat
  lowerInterval : Option Rat
  upperInterval : Option Rat
  historicalSales : Rat
  anomalyFlag : Bool
deriving DecidableEq

/-- The per-item map inside `fetchForecast`: rename `timestamp` to `date` and
copy `lower_bound`/`upper_bound` verbatim (no default substitution appears in
the code), with constant `historicalSales = 0` and `anomalyFlag = false`. -/
def mapForecastItem (item : ForecastItem) : ForecastPoint :=
  { date := item.timestamp
    forecast := item.forecast
    lowerInterval := item.lower_bound
    upperInterval := item.upper_bound
    historicalSales := 0
    anomalyFlag := false }

/-- Modelled from the spec: `demoForecast` lives in `demo-data.ts`, which is
not among the provided sources; the fallback provider of the spec supplies a fixed
synthetic forecast series of the requested length. -/
def demoForecast (_id : String) (periods : Nat) : List ForecastPoint :=
  List.replicate periods
    { date := "demo"
      forecast := 10000
      lowerInterval := some 9000
      upperInterval := some 11000
      historicalSales := 0
      anomalyFlag := false }

/-- `fetchForecast`: map the decoded array on success; any failure inside the
try block (transport, non-success status, or `json.map` throwing because the
body is not an array, modelled by a `none` body) falls back to
`demoForecast("demo", periods)`. -/
def fetchForecast (periods : Nat) (net : NetResult (Option (List ForecastItem))) :
    List ForecastPoint :=
  match net with
  | NetResult.transportError => demoForecast "demo" periods
  | NetResult.success st body =>
      if isOk st then
        match body with
        | some items => items.map mapForecastItem
        | none => demoForecast "demo" periods
      else demoForecast "demo" periods

/-- Decoded backend recommendation entry. -/
structure RecommendationItem where
  type : String
  priority : String
  message : String
  expected_impact : String
deriving DecidableEq

/-- Decoded body of the recommendations endpoint: the entries are nested under
a wrapper object. -/
structure RecommendationsPayload where
  store_id : Nat
  risk_level : String
  recommendations : List RecommendationItem
deriving DecidableEq

/-- The flattened view record the frontend UI expects for a recommendation. -/
structure FlatRecommendation where
  id : String
  title : String
  details : String
  severity : String
  action : String
deriving DecidableEq

/-- Modelled from the spec: `demoRecommendations` lives in `demo-data.ts`,
which is not among the provided sources; the fallback provider of the spec supplies
a fixed list of flattened view records. -/
def demoRecommendations : List FlatRecommendation :=
  [{ id := "rec-0"
     title := "Demo recommendation"
     details := "Static demo recommendation entry"
     severity := "medium"
     action := "inventory" }]

/-- Value resolved by `fetchRecommendations` (its declared type is `any`):
either the raw decoded wrapper object returned unchanged by
`return await res.json()`, or the demo fallback list. -/
inductive RecsResult where
  | raw (p : RecommendationsPayload)
  | fallback (recs : List FlatRecommendation)
deriving DecidableEq

/-- `fetchRecommendations`: return the decoded body unchanged on success (no
flattening appears in the code), the demo fallback on any failure. -/
def fetchRecommendations (net : NetResult RecommendationsPayload) : RecsResult :=
  match net with
  | NetResult.transportError => RecsResult.fallback demoRecommendations
  | NetResult.success st p =>
      if isOk st then RecsResult.raw p else RecsResult.fallback demoRecommendations

/-- Inventory snapshot view model (spec §3: stock level, demand rate, derived
days-until-stockout). -/
structure InventorySnapshot where
  productId : String
  stockLevel : Rat
  demandRate : Rat
  daysUntilStockout : Rat
deriving DecidableEq

/-- Modelled from the spec: `demoInventories` lives in `demo-data.ts`, which
is not among the provided sources; the spec calls it a static synthetic
fixture with a derived days-until-stockout field. -/
def demoInventories : List InventorySnapshot :=
  [{ productId := "prod-1", stockLevel := 500, demandRate := 25
     daysUntilStockout := 500 / 25 }]

/-- `fetchInventories`: the body is a single `return demoInventories()`; the
result is the list of issued requests (none) paired with the value. -/
def fetchInventories : List String × List InventorySnapshot :=
  ([], demoInventories)

/-- `checkHealth`: resolve `res.ok` when the request completes, `false` when
it fails; the plain `Bool` result type reflects that it never throws. -/
def checkHealth (net : NetResult Unit) : Bool :=
  match net with
  | NetResult.transportError => false
  | NetResult.success st _ => isOk st


/-- Helper: running a sequence of store mutations, the final state is decided
by the last mutation alone (or is the initial state when there is none). -/
lemma applyOps_getLast (ops : List StoreOp) :
    ∀ s : Store, applyOps ops s =
      match ops.getLast? with
      | some (StoreOp.set u) => some u
      | some StoreOp.remove => none
      | none => s := by
  induction ops with
  | nil => intro s; rfl
  | cons op rest ih =>
    intro s
    cases rest with
    | nil => cases op <;> rfl
    | cons op2 rest2 =>
      have h1 : applyOps (op :: op2 :: rest2) s =
          applyOps (op2 :: rest2)
            (match op with
             | StoreOp.set u => setAuthToken u s
             | StoreOp.remove => removeAuthToken s) := rfl
      rw [h1, ih, List.getLast?_cons_cons]
      cases hl : (op2 :: rest2).getLast? with
      | none => simp [List.getLast?_eq_none_iff] at hl
      | some o => cases o <;> rfl

/-- C7: round-trip laws of the session store: a get after a set returns the
token just set, a get after a clear returns null, and over any sequence of
mutations the token is present exactly when the last mutation is a set (a set
not followed by a clear); with no mutation the state is unchanged. -/
theorem session_store_roundtrip (t : String) (s : Store) (ops : List StoreOp) :
    getAuthToken (setAuthToken t s) = some t ∧
    getAuthToken (removeAuthToken s) = none ∧
    getAuthToken (applyOps ops s) =
      (match ops.getLast? with
       | some (StoreOp.set u) => some u
       | some StoreOp.remove => none
       | none => getAuthToken s) := by
  refine ⟨rfl, rfl, ?_⟩
  exact applyOps_getLast ops s

/-- C3 counterexample: a non-success login response whose decodable body is
the JSON object with detail equal to the empty string. The claim as stated
requires the thrown error to carry that detail message (the empty string),
but the JavaScript or-operator discards the falsy empty string and the code
throws "Login failed" instead. -/
theorem login_empty_detail_counterexample :
    (login (LoginHttp.badStatus (LoginErrBody.obj (some ""))) none).1 =
      Except.error (ApiError.thrown "Login failed") ∧
    "Login failed" ≠ "" := ⟨rfl, by decide⟩

/-- C3 (amended): with valid credentials the issued access token is stored in
the session store before resolving; with invalid credentials the store is
unchanged, and the failure observed by the caller is: the backend detail
message when the body decodes to an object with a non-empty string detail;
"Login failed" when the body is not decodable JSON or decodes to an object
whose detail is absent or the empty string; and an uncaught TypeError when
the body decodes to null (the `.catch` guards only the decode, not the
`error.detail` access). -/
theorem login_token_and_error_message (resp : LoginResponse) (d : String)
    (b : LoginErrBody) (s : Store) :
    login (LoginHttp.ok resp) s = (Except.ok resp, some resp.access_token) ∧
    (login (LoginHttp.badStatus b) s).2 = s ∧
    (login (LoginHttp.badStatus (LoginErrBody.obj (some d))) s).1 =
      Except.error (ApiError.thrown (if d = "" then "Login failed" else d)) ∧
    (login (LoginHttp.badStatus (LoginErrBody.obj none)) s).1 =
      Except.error (ApiError.thrown "Login failed") ∧
    (login (LoginHttp.badStatus LoginErrBody.notJson) s).1 =
      Except.error (ApiError.thrown "Login failed") ∧
    (login (LoginHttp.badStatus LoginErrBody.nullBody) s).1 =
      Except.error ApiError.typeError :=
  ⟨rfl, rfl, rfl, rfl, rfl, rfl⟩

/-- C1: evaluation of `fetchForecast` at a successful response holding one
item with both bounds absent. The emitted view-model point carries
`lowerInterval = none` and `upperInterval = none` (the raw pass-through of the
absent fields), not the defaulted `0.9 × F` and `1.1 × F` the claim and the
spec require. -/
theorem forecast_no_bound_defaulting :
    fetchForecast 6 (NetResult.success 200
        (some [{ timestamp := "2012-11-04", forecast := 100,
                 lower_bound := none, upper_bound := none }])) =
      [{ date := "2012-11-04", forecast := 100, lowerInterval := none,
         upperInterval := none, historicalSales := 0, anomalyFlag := false }] ∧
    (none : Option Rat) ≠ some ((9 / 10 : Rat) * 100) ∧
    (none : Option Rat) ≠ some ((11 / 10 : Rat) * 100) := by
  refine ⟨rfl, ?_, ?_⟩ <;> simp

/-- Concrete recommendation entry used to exhibit the behaviour of
`fetchRecommendations`. -/
def exampleRecommendation : RecommendationItem :=
  { type := "PRICING"
    priority := "MEDIUM"
    message := "Review pricing strategy"
    expected_impact := "Optimize revenue" }

/-- Concrete one-entry recommendations payload used to exhibit the behaviour
of `fetchRecommendations`. -/
def examplePayload : RecommendationsPayload :=
  { store_id := 1
    risk_level := "MEDIUM"
    recommendations := [exampleRecommendation] }

/-- C2: evaluation of `fetchRecommendations` at a successful response whose
payload holds one recommendation entry. The code resolves to the raw wrapper
object unchanged, which is not a flattened array of view records of any
content, so no flattening with index-derived ids takes place. -/
theorem recommendations_returned_raw :
    fetchRecommendations (NetResult.success 200 examplePayload) =
      RecsResult.raw examplePayload ∧
    examplePayload.recommendations.length = 1 ∧
    (∀ recs : List FlatRecommendation,
      RecsResult.raw examplePayload ≠ RecsResult.fallback recs) := by
  refine ⟨rfl, ?_, ?_⟩
  · rfl
  · intro recs
    simp

/-- C4: on every read endpoint (KPI, stores, forecast, recommendations), a
non-success status or a transport failure resolves to the designated static
fallback value of that endpoint; the plain result types show no rejection
escapes. -/
theorem read_endpoint_fallbacks (st : Nat) (h : isOk st = false)
    (kb : Option KPIJson) (sp : StoresPayload) (fb : Option (List ForecastItem))
    (rp : RecommendationsPayload) (periods : Nat) :
    fetchKPIMetrics (NetResult.success st kb) = demoKPIMetrics ∧
    fetchKPIMetrics NetResult.transportError = demoKPIMetrics ∧
    fetchStores (NetResult.success st sp) = fallbackStores ∧
    fetchStores NetResult.transportError = fallbackStores ∧
    fetchForecast periods (NetResult.success st fb) = demoForecast "demo" periods ∧
    fetchForecast periods NetResult.transportError = demoForecast "demo" periods ∧
    fetchRecommendations (NetResult.success st rp) =
      RecsResult.fallback demoRecommendations ∧
    fetchRecommendations NetResult.transportError =
      RecsResult.fallback demoRecommendations := by
  refine ⟨?_, rfl, ?_, rfl, ?_, rfl, ?_, rfl⟩ <;>
    simp [fetchKPIMetrics, fetchKPIBody, fetchStores, fetchForecast,
      fetchRecommendations, h]

/-- C4 witness: the fallback behaviour at status 500 with concrete bodies. -/
theorem read_endpoint_fallbacks_witness :
    isOk 500 = false ∧
    (fetchKPIMetrics (NetResult.success 500 none) = demoKPIMetrics ∧
     fetchKPIMetrics NetResult.transportError = demoKPIMetrics ∧
     fetchStores (NetResult.success 500 fallbackStores) = fallbackStores ∧
     fetchStores NetResult.transportError = fallbackStores ∧
     fetchForecast 3 (NetResult.success 500 none) = demoForecast "demo" 3 ∧
     fetchForecast 3 NetResult.transportError = demoForecast "demo" 3 ∧
     fetchRecommendations (NetResult.success 500
        { store_id := 1, risk_level := "LOW", recommendations := [] }) =
       RecsResult.fallback demoRecommendations ∧
     fetchRecommendations NetResult.transportError =
       RecsResult.fallback demoRecommendations) :=
  ⟨by decide, read_endpoint_fallbacks 500 (by decide) none fallbackStores none
     { store_id := 1, risk_level := "LOW", recommendations := [] } 3⟩

/-- C5: the normalizers never let a failure escape: on every possible input,
`fetchKPIMetrics` resolves either to the demo fallback (covering malformed
bodies, whose property access throws inside the caught try block) or to the
total field map `mapKPI` applied to the decoded record, whose `Option` fields
absorb absent optional fields; likewise `fetchForecast` resolves either to
the demo fallback or to the total per-item map over the decoded items. -/
theorem normalizer_no_unhandled_failure :
    (∀ net : NetResult (Option KPIJson),
      fetchKPIMetrics net = demoKPIMetrics ∨
      ∃ st j, net = NetResult.success st (some j) ∧
        fetchKPIMetrics net = mapKPI j) ∧
    (∀ (periods : Nat) (net : NetResult (Option (List ForecastItem))),
      fetchForecast periods net = demoForecast "demo" periods ∨
      ∃ st items, net = NetResult.success st (some items) ∧
        fetchForecast periods net = items.map mapForecastItem) := by
  constructor
  · intro net
    cases net with
    | transportError => exact Or.inl rfl
    | success st body =>
      cases body with
      | none =>
        left
        cases hok : isOk st <;> simp [fetchKPIMetrics, fetchKPIBody, hok]
      | some j =>
        cases hok : isOk st with
        | true =>
          right
          exact ⟨st, j, rfl, by simp [fetchKPIMetrics, fetchKPIBody, hok]⟩
        | false =>
          left
          simp [fetchKPIMetrics, fetchKPIBody, hok]
  · intro periods net
    cases net with
    | transportError => exact Or.inl rfl
    | success st body =>
      cases body with
      | none =>
        left
        cases hok : isOk st <;> simp [fetchForecast, hok]
      | some items =>
        cases hok : isOk st with
        | true =>
          right
          exact ⟨st, items, rfl, by simp [fetchForecast, hok]⟩
        | false =>
          left
          simp [fetchForecast, hok]

/-- C6: `fetchInventories` issues no network request and resolves to exactly
the static demo-provider value. -/
theorem fetchInventories_demo_only :
    fetchInventories.1 = [] ∧ fetchInventories.2 = demoInventories :=
  ⟨rfl, rfl⟩

/-- C8 counterexample: with the empty string stored as the token, the falsy
check `if (!token) return` fires, so `logout` resolves at once issuing no
request and leaving the store holding the empty-string token — a present
token — refuting the claim that `logout` always leaves the store with no
token when it resolves. -/
theorem logout_keeps_empty_token_counterexample :
    logout (some "") NetResult.transportError = (some "", []) ∧
    (some "" : Option String) ≠ none := ⟨rfl, by simp⟩

/-- C8 (amended): when the stored value is absent or the empty string (both
falsy under `!token`), `logout` returns at once, issuing no request and
leaving the store unchanged; when a non-empty token is stored it issues the
logout request and removes the token whatever the outcome of the request
(also on transport failure); the plain result type shows it never throws. -/
theorem logout_clears_token (t : String) (ht : t ≠ "") (net : NetResult Unit) :
    logout none net = (none, []) ∧
    logout (some "") net = (some "", []) ∧
    (logout (some t) net).1 = none ∧
    (logout (some t) net).2 = [logoutRequest] := by
  refine ⟨rfl, rfl, ?_, ?_⟩ <;>
    simp [logout, falsy, getAuthToken, removeAuthToken, ht]

/-- C8 witness: the amended behaviour at the token "tok". -/
theorem logout_clears_token_witness :
    ("tok" : String) ≠ "" ∧
    (logout none NetResult.transportError = (none, []) ∧
     logout (some "") NetResult.transportError = (some "", []) ∧
     (logout (some "tok") NetResult.transportError).1 = none ∧
     (logout (some "tok") NetResult.transportError).2 = [logoutRequest]) :=
  ⟨by decide, logout_clears_token "tok" (by decide) NetResult.transportError⟩

/-- C9: `getCurrentUser` with no stored token — and likewise with the stored
empty string, which the falsy `if (!token)` check treats the same way —
throws "Not authenticated" and issues no request, leaving the store as it
was. A response therefore only ever arises from a non-empty stored token,
and for such a token: on a 401 response it removes the stored token and
throws "Session expired"; on any other non-success status it throws
"Failed to get user" and leaves the token in place. -/
theorem getCurrentUser_spec (t : String) (ht : t ≠ "") (body : UserResponse)
    (st : Nat) (h1 : isOk st = false) (h2 : st ≠ 401)
    (net : NetResult UserResponse) :
    getCurrentUser none net =
      (Except.error (ApiError.thrown "Not authenticated"), none, []) ∧
    getCurrentUser (some "") net =
      (Except.error (ApiError.thrown "Not authenticated"), some "", []) ∧
    getCurrentUser (some t) (NetResult.success 401 body) =
      (Except.error (ApiError.thrown "Session expired"), none, [authMeRequest]) ∧
    getCurrentUser (some t) (NetResult.success st body) =
      (Except.error (ApiError.thrown "Failed to get user"), some t,
        [authMeRequest]) := by
  refine ⟨rfl, rfl, ?_, ?_⟩
  · simp [getCurrentUser, falsy, getAuthToken, removeAuthToken, isOk, ht]
  · simp [getCurrentUser, falsy, getAuthToken, removeAuthToken, ht, h1, h2]

/-- C9 witness: the behaviours at token "tok", status 500 and a concrete
user body. -/
theorem getCurrentUser_spec_witness :
    (("tok" : String) ≠ "" ∧ isOk 500 = false ∧ (500 : Nat) ≠ 401) ∧
    (getCurrentUser none NetResult.transportError =
        (Except.error (ApiError.thrown "Not authenticated"), none, []) ∧
     getCurrentUser (some "") NetResult.transportError =
        (Except.error (ApiError.thrown "Not authenticated"), some "", []) ∧
     getCurrentUser (some "tok") (NetResult.success 401 ⟨"admin", true⟩) =
        (Except.error (ApiError.thrown "Session expired"), none,
          [authMeRequest]) ∧
     getCurrentUser (some "tok") (NetResult.success 500 ⟨"admin", true⟩) =
        (Except.error (ApiError.thrown "Failed to get user"), some "tok",
          [authMeRequest])) :=
  ⟨⟨by decide, by decide, by decide⟩,
   getCurrentUser_spec "tok" (by decide) ⟨"admin", true⟩ 500 (by decide)
     (by decide) NetResult.transportError⟩

/-- C10: `checkHealth` resolves to a boolean that equals the success
predicate of the response status, and resolves to false on a transport
failure; the plain `Bool` result type shows it never throws. -/
theorem checkHealth_spec (st : Nat) :
    checkHealth (NetResult.success st ()) = isOk st ∧
    checkHealth NetResult.transportError = false :=
  ⟨rfl, rfl⟩

end Api
